import Mathlib

/-!
Shallow embedding of the matching-and-arbitrage core of the arbitrage-bot
repository, together with theorems settling the frozen claims about it.

Numeric values that the JavaScript source manipulates as IEEE doubles are
embedded as exact rationals; divisions are the usual rational divisions
(with the Lean convention x / 0 = 0 where JavaScript would produce
Infinity/NaN — no claim settled here depends on that corner).  The one
place where the source's floating-point semantics is itself the subject of
a claim (the NaN produced by an unguarded 0/0 in cosineSimilarity) is
embedded with an explicit JavaScript-number type carrying NaN and the
infinities.
-/

/-! ## Fee model (src/fees.js)

The source reads its three rate constants from an ambient CONFIG object
(CONFIG.fees.kalshi.takerFeeRate, CONFIG.fees.kalshi.makerFeeRate,
CONFIG.fees.polymarket.feeRate).  No CONFIG object in the repository
defines a fees section, so the rates are taken from the specification,
which designates 0.07, 0.0175 and 0.02 as the authoritative values.
-/

/-- Modelled from the spec: CONFIG.fees.kalshi.takerFeeRate, absent from the
repository's CONFIG objects; the spec fixes the default (taker) tier rate
at 0.07. -/
def takerFeeRate : ℚ := 7/100

/-- Modelled from the spec: CONFIG.fees.kalshi.makerFeeRate, absent from the
repository's CONFIG objects; the spec fixes the alternate (maker) tier rate
at 0.0175. -/
def makerFeeRate : ℚ := 175/10000

/-- Modelled from the spec: CONFIG.fees.polymarket.feeRate, absent from the
repository's CONFIG objects; the spec fixes the venue-B rate at 0.02. -/
def polymarketFeeRate : ℚ := 2/100

/-- calculateKalshiTakerFee (src/fees.js:10-14):
fee = rate * contracts * price * (1 - price), rounded up to the next cent
via Math.ceil(fee * 100) / 100. -/
def calculateKalshiTakerFee (contracts price : ℚ) : ℚ :=
  ((⌈takerFeeRate * contracts * price * (1 - price) * 100⌉ : ℤ) : ℚ) / 100

/-- calculateKalshiMakerFee (src/fees.js:23-27). -/
def calculateKalshiMakerFee (contracts price : ℚ) : ℚ :=
  ((⌈makerFeeRate * contracts * price * (1 - price) * 100⌉ : ℤ) : ℚ) / 100

/-- calculatePolymarketFee (src/fees.js:36-44): 2% of the potential profit
(contracts - contracts * price), floored at 0 via Math.max(0, fee). -/
def calculatePolymarketFee (contracts price : ℚ) : ℚ :=
  max 0 (polymarketFeeRate * (contracts - contracts * price))

/-- The cost-breakdown record returned by calculateKalshiCost and
calculatePolymarketCost (src/fees.js:53-83). -/
structure CostBreakdown where
  contractCost : ℚ
  fee : ℚ
  totalCost : ℚ
  maxPayout : ℚ
deriving DecidableEq, Inhabited

/-- calculateKalshiCost (src/fees.js:53-65). -/
def calculateKalshiCost (contracts price : ℚ) (isMaker : Bool) : CostBreakdown :=
  let contractCost := contracts * price
  let fee := if isMaker then calculateKalshiMakerFee contracts price
             else calculateKalshiTakerFee contracts price
  ⟨contractCost, fee, contractCost + fee, contracts⟩

/-- calculatePolymarketCost (src/fees.js:73-83). -/
def calculatePolymarketCost (contracts price : ℚ) : CostBreakdown :=
  let contractCost := contracts * price
  let fee := calculatePolymarketFee contracts price
  ⟨contractCost, fee, contractCost + fee, contracts⟩

/-- The profit record returned by calculateArbitrageProfit
(src/fees.js:91-107). -/
structure ProfitInfo where
  totalCost : ℚ
  guaranteedPayout : ℚ
  netProfit : ℚ
  profitPercent : ℚ
  side1Cost : ℚ
  side2Cost : ℚ
  side1Fee : ℚ
  side2Fee : ℚ
deriving DecidableEq, Inhabited

/-- calculateArbitrageProfit (src/fees.js:91-107).  profitPercent uses
rational division (0 when totalCost = 0, where JavaScript would give
NaN; no settled claim touches that corner). -/
def calculateArbitrageProfit (side1 side2 : CostBreakdown) : ProfitInfo :=
  let totalCost := side1.totalCost + side2.totalCost
  let guaranteedPayout := side1.maxPayout
  let netProfit := guaranteedPayout - totalCost
  ⟨totalCost, guaranteedPayout, netProfit, netProfit / totalCost * 100,
   side1.totalCost, side2.totalCost, side1.fee, side2.fee⟩

/-! ## Market records and the arbitrage calculator (src/arbitrage.js) -/

/-- A market object as consumed by src/arbitrage.js: the fields the module
reads, each optional because JavaScript property access may yield
undefined. -/
structure Market where
  id : String
  title : Option String
  question : Option String
  yes_price : Option ℚ
  price : Option ℚ
deriving DecidableEq, Inhabited

/-- JavaScript truthiness fallback x || y for an optional numeric field:
the field's value when present and nonzero, otherwise y (0 is falsy). -/
def jsOrQ (x : Option ℚ) (y : ℚ) : ℚ :=
  match x with
  | some v => if v = 0 then y else v
  | none => y

/-- JavaScript truthiness fallback x || y for an optional string field
(the empty string is falsy). -/
def jsOrS (x : Option String) (y : String) : String :=
  match x with
  | some s => if s = "" then y else s
  | none => y

/-- The effective yes price read by calculateArbitrage
(src/arbitrage.js:145,147): market.yes_price || market.price || 0.5. -/
def effectiveYesPrice (m : Market) : ℚ :=
  jsOrQ m.yes_price (jsOrQ m.price (1/2))

/-- The opportunity object built by checkArbitrageOpportunity
(src/arbitrage.js:231-243,249-261); the spread ...profit is modelled as a
nested profit field. -/
structure Opportunity where
  platform1 : String
  side1 : String
  price1 : ℚ
  contracts1 : ℚ
  cost1 : CostBreakdown
  platform2 : String
  side2 : String
  price2 : ℚ
  contracts2 : ℚ
  cost2 : CostBreakdown
  profit : ProfitInfo
deriving DecidableEq, Inhabited

/-- The platform-dispatched cost computation repeated at
src/arbitrage.js:205-211 and 219-225:
platform === 'kalshi' ? calculateKalshiCost(contracts, price, false)
                      : calculatePolymarketCost(contracts, price). -/
def costFor (platform : String) (contracts price : ℚ) : CostBreakdown :=
  if platform = "kalshi" then calculateKalshiCost contracts price false
  else calculatePolymarketCost contracts price

/-- checkArbitrageOpportunity (src/arbitrage.js:187-266): naive allocation
contracts = investment / (price1 + price2); if the fee-inclusive first-pass
total cost exceeds the investment, one proportional rescale and one
recomputation of both costs; the candidate is returned only when its
netProfit is positive. -/
def checkArbitrageOpportunity (platform1 side1 : String) (price1 : ℚ)
    (platform2 side2 : String) (price2 : ℚ) (investment : ℚ) :
    Option Opportunity :=
  let totalPrice := price1 + price2
  let contracts := investment / totalPrice
  let cost1 := costFor platform1 contracts price1
  let cost2 := costFor platform2 contracts price2
  let totalCost := cost1.totalCost + cost2.totalCost
  if totalCost > investment then
    let adjusted := contracts * (investment / totalCost)
    let adjustedCost1 := costFor platform1 adjusted price1
    let adjustedCost2 := costFor platform2 adjusted price2
    let profit := calculateArbitrageProfit adjustedCost1 adjustedCost2
    if profit.netProfit > 0 then
      some ⟨platform1, side1, price1, adjusted, adjustedCost1,
            platform2, side2, price2, adjusted, adjustedCost2, profit⟩
    else none
  else
    let profit := calculateArbitrageProfit cost1 cost2
    if profit.netProfit > 0 then
      some ⟨platform1, side1, price1, contracts, cost1,
            platform2, side2, price2, contracts, cost2, profit⟩
    else none

/-- calculateArbitrage (src/arbitrage.js:143-174): evaluates the two
cross-venue combinations and returns the best by netProfit.  The source
pushes the non-null results into a list, sorts it descending by netProfit
with a stable sort and returns the head (null when the list is empty); for
the at-most-two candidates this is exactly the match below (on a tie the
stable sort keeps the first-pushed candidate, opp1). -/
def calculateArbitrage (kalshiMarket polyMarket : Market) (investment : ℚ) :
    Option Opportunity :=
  let kalshiYesPrice := effectiveYesPrice kalshiMarket
  let kalshiNoPrice := 1 - kalshiYesPrice
  let polyYesPrice := effectiveYesPrice polyMarket
  let polyNoPrice := 1 - polyYesPrice
  let opp1 := checkArbitrageOpportunity "kalshi" "yes" kalshiYesPrice
                "polymarket" "no" polyNoPrice investment
  let opp2 := checkArbitrageOpportunity "kalshi" "no" kalshiNoPrice
                "polymarket" "yes" polyYesPrice investment
  match opp1, opp2 with
  | none, none => none
  | some o, none => some o
  | none, some o => some o
  | some o1, some o2 =>
      some (if o2.profit.netProfit > o1.profit.netProfit then o2 else o1)

/-- Modelled from the spec (section 4.5, step 3): the contract count a
combination ends up with after the one-shot rescale — contracts0 =
investment/(price1+price2), rescaled once to
contracts0 * investment/(cost1+cost2) exactly when the first-pass
fee-inclusive total cost exceeds the investment, untouched otherwise. -/
def specRescaledContracts (platform1 : String) (price1 : ℚ)
    (platform2 : String) (price2 : ℚ) (investment : ℚ) : ℚ :=
  let contracts0 := investment / (price1 + price2)
  let cost1 := costFor platform1 contracts0 price1
  let cost2 := costFor platform2 contracts0 price2
  if cost1.totalCost + cost2.totalCost > investment then
    contracts0 * (investment / (cost1.totalCost + cost2.totalCost))
  else contracts0

/-- The net profit a combination evaluates to: the profit at the
(possibly once-rescaled) contract count. -/
def combinationNetProfit (platform1 : String) (price1 : ℚ)
    (platform2 : String) (price2 : ℚ) (investment : ℚ) : ℚ :=
  (calculateArbitrageProfit
    (costFor platform1 (specRescaledContracts platform1 price1 platform2 price2 investment) price1)
    (costFor platform2 (specRescaledContracts platform1 price1 platform2 price2 investment) price2)).netProfit

/-! ## Entity extraction and lexical similarity (src/arbitrage.js:8-90)

Strings are processed character-by-character (String.data), mirroring the
source's regex passes.  The source's toLowerCase is modelled on the ASCII
range; every character the normalization step keeps is ASCII, so this
agrees with the source wherever a kept character is produced. -/

/-- ASCII lowercasing, as applied by text.toLowerCase() to the characters
that survive the subsequent [^a-z0-9\s] stripping. -/
def jsToLower (c : Char) : Char :=
  if 'A' ≤ c ∧ c ≤ 'Z' then Char.ofNat (c.toNat + 32) else c

/-- Character class [a-z0-9]. -/
def isLowerAlnum (c : Char) : Bool :=
  ('a' ≤ c && c ≤ 'z') || ('0' ≤ c && c ≤ '9')

/-- The replace pass of src/arbitrage.js:9: characters outside [a-z0-9\s]
become a space, whitespace and kept characters pass through. -/
def normalizeChar (c : Char) : Char :=
  if isLowerAlnum c || c.isWhitespace then c else ' '

/-- String.prototype.trim on a character list. -/
def trimWs (l : List Char) : List Char :=
  ((l.dropWhile Char.isWhitespace).reverse.dropWhile Char.isWhitespace).reverse

/-- The normalization of src/arbitrage.js:9:
text.toLowerCase().replace(/[^a-z0-9\s]/g, ' ').trim(). -/
def normalizeText (s : String) : List Char :=
  trimWs ((s.data.map jsToLower).map normalizeChar)

/-- Split on whitespace runs (split(/\s+/) on a trimmed string, with the
empty-string token of an empty input dropped — the source filters it out
of every set it builds, so the two agree on all derived sets). -/
def splitWsAux : List Char → List Char → List (List Char)
  | [], acc => if acc = [] then [] else [acc.reverse]
  | c :: cs, acc =>
    if c.isWhitespace then
      if acc = [] then splitWsAux cs [] else acc.reverse :: splitWsAux cs []
    else splitWsAux cs (c :: acc)

/-- Whitespace tokenization of a normalized character list. -/
def splitWs (l : List Char) : List (List Char) := splitWsAux l []

/-- A token of the normalized text matched by the year regex
\b(20\d{2}|2100)\b: since the normalized text contains only [a-z0-9] and
whitespace, the word-boundary anchors make a match exactly a whole
whitespace-delimited token of that shape. -/
def isYearToken (t : List Char) : Bool :=
  match t with
  | ['2', '1', '0', '0'] => true
  | ['2', '0', c, d] => c.isDigit && d.isDigit
  | _ => false

/-- A token matched by the number regex \b\d+(?:\.\d+)?\b over the
normalized text (which contains no dot, every dot having been replaced by
a space): exactly a non-empty all-digit token. -/
def isNumberToken (t : List Char) : Bool :=
  !t.isEmpty && t.all Char.isDigit

/-- The stop-word set of src/arbitrage.js:15. -/
def stopWords : List String :=
  ["will", "be", "the", "a", "an", "in", "on", "at", "to", "for", "of",
   "by", "before", "after", "than", "more", "less", "have", "has", "is",
   "are", "was", "were", "been", "being"]

/-- Character class [A-Z]. -/
def isUpperAlpha (c : Char) : Bool := 'A' ≤ c && c ≤ 'Z'

/-- Character class [a-z]. -/
def isLowerAlpha (c : Char) : Bool := 'a' ≤ c && c ≤ 'z'

/-- The regex word-character class \w = [A-Za-z0-9_], used for the \b
anchors of the name pattern over the original (un-normalized) text. -/
def isWordChar (c : Char) : Bool :=
  isUpperAlpha c || isLowerAlpha c || c.isDigit || c = '_'

/-- Parse [A-Z][a-z]+ at the head of the list (greedy), returning the
matched characters and the rest. -/
def parseCapWord (l : List Char) : Option (List Char × List Char) :=
  match l with
  | [] => none
  | c :: rest =>
    if isUpperAlpha c then
      let lows := rest.takeWhile isLowerAlpha
      if lows.isEmpty then none else some (c :: lows, rest.drop lows.length)
    else none

/-- Parse one iteration \s+[A-Z][a-z]+ of the name pattern's repeated
group, returning the matched characters (whitespace included, as the regex
match slice does) and the rest. -/
def parseNameExt (l : List Char) : Option (List Char × List Char) :=
  let ws := l.takeWhile Char.isWhitespace
  if ws.isEmpty then none
  else
    match parseCapWord (l.drop ws.length) with
    | some (w, rest) => some (ws ++ w, rest)
    | none => none

/-- Greedily parse the repeated group (?:\s+[A-Z][a-z]+)* . -/
def parseNameExts : Nat → List Char → List (List Char) × List Char
  | 0, l => ([], l)
  | fuel + 1, l =>
    match parseNameExt l with
    | none => ([], l)
    | some (seg, rest) =>
      let p := parseNameExts fuel rest
      (seg :: p.1, p.2)

/-- The trailing \b of the name pattern: the next character must not be a
word character. -/
def boundaryOk : List Char → Bool
  | [] => true
  | c :: _ => !isWordChar c

/-- Attempt the full name pattern [A-Z][a-z]+(?:\s+[A-Z][a-z]+)*\b at the
current position (the caller guarantees the leading \b).  The regex
backtracks by dropping trailing iterations of the group until the match
ends at a word boundary; dropping one iteration always restores a
boundary, because the dropped iteration begins with whitespace. -/
def tryNameMatch (fuel : Nat) (l : List Char) : Option (List Char × List Char) :=
  match parseCapWord l with
  | none => none
  | some (w1, rest) =>
    let p := parseNameExts fuel rest
    if boundaryOk p.2 then some (w1 ++ p.1.flatten, p.2)
    else
      match p.1.reverse with
      | [] => none
      | lastSeg :: revInit => some (w1 ++ revInit.reverse.flatten, lastSeg ++ p.2)

/-- Global scan of /\b[A-Z][a-z]+(?:\s+[A-Z][a-z]+)*\b/g over the original
text: at every position whose previous character is not a word character,
attempt a match; continue past each match (non-overlapping, leftmost
first).  prevWord records whether the previous character was a word
character.  fuel is an upper bound on remaining work; fuel ≥ length of the
list makes the scan total, and every recursive call consumes at least one
character. -/
def scanNames : Nat → Bool → List Char → List (List Char)
  | 0, _, _ => []
  | fuel + 1, prevWord, l =>
    match l with
    | [] => []
    | c :: rest =>
      if prevWord then scanNames fuel (isWordChar c) rest
      else
        match tryNameMatch fuel l with
        | some (m, rest2) => m :: scanNames fuel true rest2
        | none => scanNames fuel (isWordChar c) rest

/-- The name matches of src/arbitrage.js:21-22 over the original text. -/
def extractNames (s : String) : List (List Char) :=
  scanNames (s.data.length + 1) false s.data

/-- The entity bag built by extractKeyEntities (src/arbitrage.js:8-34). -/
structure EntityBag where
  years : Finset String
  words : Finset String
  names : Finset String
  numbers : Finset String
  normalized : List Char
deriving DecidableEq

/-- extractKeyEntities (src/arbitrage.js:8-34). -/
def extractKeyEntities (text : String) : EntityBag :=
  let normalized := normalizeText text
  let tokens := splitWs normalized
  let years := (tokens.filter isYearToken).map (fun t => String.mk t)
  let words := (tokens.filter
      (fun t => decide (t.length > 2) &&
        !(stopWords.contains (String.mk t)))).map (fun t => String.mk t)
  let names := (extractNames text).map (fun n => String.mk (n.map jsToLower))
  let numbers := (tokens.filter isNumberToken).map (fun t => String.mk t)
  ⟨years.toFinset, words.toFinset, names.toFinset, numbers.toFinset, normalized⟩

/-- String.prototype.includes on character lists: sub occurs as a
contiguous slice of l. -/
def containsSub (l sub : List Char) : Bool :=
  l.tails.any (fun t => sub.isPrefixOf t)

/-- The body of calculateSimilarity after the two entity bags are built
(src/arbitrage.js:48-89): exact-match, substring, year-gate, then the
weighted Jaccard combination 0.6/0.25/0.15. -/
def similarityScores (e1 e2 : EntityBag) : ℚ :=
  if e1.normalized = e2.normalized then 1
  else if containsSub e1.normalized e2.normalized ∨ containsSub e2.normalized e1.normalized then
    85/100
  else if 0 < e1.years.card ∧ 0 < e2.years.card ∧ (e1.years ∩ e2.years).card = 0 then 0
  else
    (if 0 < (e1.words ∪ e2.words).card then
        ((e1.words ∩ e2.words).card : ℚ) / ((e1.words ∪ e2.words).card : ℚ)
      else 0) * (6/10) +
    (if 0 < e1.names.card ∨ 0 < e2.names.card then
        (if 0 < (e1.names ∪ e2.names).card then
          ((e1.names ∩ e2.names).card : ℚ) / ((e1.names ∪ e2.names).card : ℚ)
        else 0)
      else 0) * (25/100) +
    (if 0 < e1.numbers.card ∨ 0 < e2.numbers.card then
        (if 0 < (e1.numbers ∪ e2.numbers).card then
          ((e1.numbers ∩ e2.numbers).card : ℚ) / ((e1.numbers ∪ e2.numbers).card : ℚ)
        else 0)
      else 0) * (15/100)

/-- calculateSimilarity (src/arbitrage.js:42-90). -/
def calculateSimilarity (str1 str2 : String) : ℚ :=
  if str1 = "" ∨ str2 = "" then 0
  else similarityScores (extractKeyEntities str1) (extractKeyEntities str2)

/-! ## Greedy one-to-one matcher (src/arbitrage.js:99-134) -/

/-- The title string the matcher feeds to calculateSimilarity
(src/arbitrage.js:112-113): market.title || market.question || ''. -/
def matcherTitle (m : Market) : String :=
  jsOrS m.title (jsOrS m.question "")

/-- A matched pair as pushed by findMatchingMarkets
(src/arbitrage.js:124-129). -/
structure MatchedPair where
  kalshi : Market
  polymarket : Market
  similarity : ℚ
  matchConfidence : String
deriving DecidableEq, Inhabited

/-- The inner loop of findMatchingMarkets (src/arbitrage.js:107-120): scan
the polymarket list, skip markets whose id is already in the used set, and
keep the first candidate that is at least minSimilarity and strictly
better than the best so far (bestSimilarity starts at 0). -/
def pickBestMatchGo (used : Finset String) (minSimilarity : ℚ)
    (kalshiTitle : String) :
    List Market → Option (Market × ℚ) → Option (Market × ℚ)
  | [], best => best
  | p :: ps, best =>
    pickBestMatchGo used minSimilarity kalshiTitle ps
      (if p.id ∈ used then best
       else
         let similarity := calculateSimilarity kalshiTitle (matcherTitle p)
         let bestSimilarity := match best with
           | none => 0
           | some q => q.2
         if minSimilarity ≤ similarity ∧ bestSimilarity < similarity then
           some (p, similarity)
         else best)

/-- The full inner loop, started from bestMatch = null, bestSimilarity =
0. -/
def pickBestMatch (polys : List Market) (used : Finset String)
    (minSimilarity : ℚ) (kalshiTitle : String) : Option (Market × ℚ) :=
  pickBestMatchGo used minSimilarity kalshiTitle polys none

/-- The outer loop of findMatchingMarkets (src/arbitrage.js:103-131),
threading the used set through the kalshi markets and pushing one pair per
matched kalshi market, with the confidence tiers of line 128. -/
def findMatchingMarketsGo (polys : List Market) (minSimilarity : ℚ) :
    List Market → Finset String → List MatchedPair
  | [], _ => []
  | k :: ks, used =>
    match pickBestMatch polys used minSimilarity (matcherTitle k) with
    | none => findMatchingMarketsGo polys minSimilarity ks used
    | some (p, s) =>
      ⟨k, p, s, if 7/10 ≤ s then "high" else if 5/10 ≤ s then "medium" else "low"⟩
        :: findMatchingMarketsGo polys minSimilarity ks (insert p.id used)

/-- findMatchingMarkets (src/arbitrage.js:99-134). -/
def findMatchingMarkets (kalshiMarkets polymarketMarkets : List Market)
    (minSimilarity : ℚ) : List MatchedPair :=
  findMatchingMarketsGo polymarketMarkets minSimilarity kalshiMarkets ∅

/-! ## The opportunities route guard (src/backend/routes/opportunities.js,
src/backend/routes/system.js) -/

/-- The shape of the system route module as seen by a requiring module: a
possibly-absent isIndexing property.  When present it is a function of the
current indexing-in-progress state; property lookup on the actual exports
object may instead yield undefined (none). -/
structure SystemExports where
  isIndexing : Option (Bool → Bool)

/-- The actual exports of src/backend/routes/system.js: the file ends with
module.exports = router, and neither the router nor the module ever
defines or exports an isIndexing property (no such identifier appears
anywhere in the file), so the lookup system.isIndexing yields undefined. -/
def systemModule : SystemExports := ⟨none⟩

/-- Outcome of a GET on the opportunities route, abstracting the served
payload: the 503 indexing guard, a served match list, or a 500 error. -/
inductive OpportunitiesResponse where
  | unavailable : OpportunitiesResponse
  | served : OpportunitiesResponse
  | error : OpportunitiesResponse
deriving DecidableEq

/-- The guard logic of src/backend/routes/opportunities.js:8-31: the
handler returns 503 exactly when system.isIndexing && system.isIndexing()
is truthy — the property must be present (truthy) and its call must return
true; otherwise the request proceeds to the database query, whose success
or failure is abstracted by queryOk. -/
def opportunitiesGet (sys : SystemExports) (indexingInProgress : Bool)
    (queryOk : Bool) : OpportunitiesResponse :=
  match sys.isIndexing with
  | some f =>
    if f indexingInProgress then .unavailable
    else if queryOk then .served else .error
  | none => if queryOk then .served else .error

/-! ## Cosine similarity of the vector matcher (src/vector-matcher.js:78-92)

The source divides the dot product by Math.sqrt(norm1) * Math.sqrt(norm2)
with no zero guard; JavaScript division is modelled by an explicit
JavaScript-number result type so that 0/0 = NaN is representable.  The
vectors' componentwise arithmetic is exact (rationals); the square roots
live in ℝ, so these two definitions are the file's only noncomputable
ones — everything a settled claim evaluates is on the rational side. -/

/-- A JavaScript number that may be NaN or an infinity. -/
inductive JSNum where
  | nan : JSNum
  | posInf : JSNum
  | negInf : JSNum
  | val : ℝ → JSNum

/-- JavaScript division: 0/0 is NaN, x/0 for x ≠ 0 is a signed infinity,
and otherwise ordinary real division. -/
noncomputable def jsDiv (a b : ℝ) : JSNum :=
  if b = 0 then
    if a = 0 then .nan else if 0 < a then .posInf else .negInf
  else .val (a / b)

/-- The dot product and the two squared norms accumulated by the single
loop of src/vector-matcher.js:85-89 (defined for the equal-length lists on
which the loop runs). -/
def dotProduct (v1 v2 : List ℚ) : ℚ := (List.zipWith (fun a b => a * b) v1 v2).sum

/-- Squared Euclidean norm, the norm1/norm2 accumulator of the loop. -/
def normSq (v : List ℚ) : ℚ := (v.map (fun a => a * a)).sum

/-- cosineSimilarity (src/vector-matcher.js:78-92): early 0 for an absent
vector or mismatched lengths, then the unguarded division
dotProduct / (Math.sqrt(norm1) * Math.sqrt(norm2)). -/
noncomputable def cosineSimilarity (vec1 vec2 : Option (List ℚ)) : JSNum :=
  match vec1, vec2 with
  | some v1, some v2 =>
    if v1.length = v2.length then
      jsDiv ((dotProduct v1 v2 : ℚ) : ℝ)
        (Real.sqrt ((normSq v1 : ℚ) : ℝ) * Real.sqrt ((normSq v2 : ℚ) : ℝ))
    else .val 0
  | _, _ => .val 0

/-! ## Derived definitions used by the theorems -/

/-- The opportunity record a combination produces when it is profitable:
the fields of src/arbitrage.js:231-243 (equivalently 249-261, the two
branches differing only in whether the rescale fired, which
specRescaledContracts accounts for). -/
def combinationOpportunity (platform1 side1 : String) (price1 : ℚ)
    (platform2 side2 : String) (price2 : ℚ) (investment : ℚ) : Opportunity :=
  ⟨platform1, side1, price1,
   specRescaledContracts platform1 price1 platform2 price2 investment,
   costFor platform1 (specRescaledContracts platform1 price1 platform2 price2 investment) price1,
   platform2, side2, price2,
   specRescaledContracts platform1 price1 platform2 price2 investment,
   costFor platform2 (specRescaledContracts platform1 price1 platform2 price2 investment) price2,
   calculateArbitrageProfit
     (costFor platform1 (specRescaledContracts platform1 price1 platform2 price2 investment) price1)
     (costFor platform2 (specRescaledContracts platform1 price1 platform2 price2 investment) price2)⟩

/-- The concrete opportunity produced by the specification's end-to-end
example (buy no on venue A at 0.21, yes on venue B at 0.75, investment
100); the first-pass cost 122077/1200 ≈ 101.73 exceeds 100, so this
exercises the rescale branch: contracts rescale from 625/6 ≈ 104.17 to
12500000/122077 ≈ 102.39 and the net profit is ≈ 2.39. -/
def sampleOpportunity : Opportunity :=
  ⟨"kalshi", "no", 21/100, 12500000/122077,
   ⟨2625000/122077, 119/100, 277027163/12207700, 12500000/122077⟩,
   "polymarket", "yes", 75/100, 12500000/122077,
   ⟨9375000/122077, 62500/122077, 9437500/122077, 12500000/122077⟩,
   ⟨1220777163/12207700, 12500000/122077, 29222837/12207700,
    2922283700/1220777163, 277027163/12207700, 9437500/122077, 119/100,
    62500/122077⟩⟩

/-! ## Helper lemmas -/

theorem costFor_maxPayout (platform : String) (contracts price : ℚ) :
    (costFor platform contracts price).maxPayout = contracts := by
  unfold costFor calculateKalshiCost calculatePolymarketCost
  split <;> rfl

theorem combinationOpportunity_netProfit (p1 s1 : String) (a : ℚ)
    (p2 s2 : String) (b : ℚ) (inv : ℚ) :
    (combinationOpportunity p1 s1 a p2 s2 b inv).profit.netProfit =
      combinationNetProfit p1 a p2 b inv := rfl

theorem checkArbitrageOpportunity_eq (p1 s1 : String) (a : ℚ)
    (p2 s2 : String) (b : ℚ) (inv : ℚ) :
    checkArbitrageOpportunity p1 s1 a p2 s2 b inv =
      if 0 < combinationNetProfit p1 a p2 b inv then
        some (combinationOpportunity p1 s1 a p2 s2 b inv)
      else none := by
  simp only [checkArbitrageOpportunity, combinationNetProfit,
    specRescaledContracts, combinationOpportunity, gt_iff_lt]
  split_ifs <;> rfl

theorem checkArbitrageOpportunity_none_iff (p1 s1 : String) (a : ℚ)
    (p2 s2 : String) (b : ℚ) (inv : ℚ) :
    checkArbitrageOpportunity p1 s1 a p2 s2 b inv = none ↔
      combinationNetProfit p1 a p2 b inv ≤ 0 := by
  rw [checkArbitrageOpportunity_eq]
  split_ifs with h
  · exact iff_of_false (by simp) (not_le_of_lt h)
  · exact iff_of_true rfl (le_of_not_lt h)

theorem string_poly_ne_kalshi : ("polymarket" = "kalshi") = False := by simp

theorem string_kalshi_eq : ("kalshi" = "kalshi") = True := by simp

theorem sampleOpportunity_eval :
    checkArbitrageOpportunity "kalshi" "no" (21/100) "polymarket" "yes"
      (75/100) 100 = some sampleOpportunity := by
  have hc1 : (⌈(3871/32 : ℚ)⌉ : ℤ) = 121 := by
    rw [Int.ceil_eq_iff]
    norm_num
  have hc2 : (⌈(14516250/122077 : ℚ)⌉ : ℤ) = 119 := by
    rw [Int.ceil_eq_iff]
    norm_num
  norm_num [checkArbitrageOpportunity, costFor, calculateKalshiCost,
    calculatePolymarketCost, calculateKalshiTakerFee, calculatePolymarketFee,
    takerFeeRate, polymarketFeeRate, calculateArbitrageProfit,
    sampleOpportunity, string_poly_ne_kalshi, string_kalshi_eq, hc1, hc2]

theorem checkArbitrageOpportunity_some (p1 s1 : String) (a : ℚ)
    (p2 s2 : String) (b : ℚ) (inv : ℚ) (o : Opportunity)
    (h : checkArbitrageOpportunity p1 s1 a p2 s2 b inv = some o) :
    o = combinationOpportunity p1 s1 a p2 s2 b inv ∧
      0 < combinationNetProfit p1 a p2 b inv := by
  rw [checkArbitrageOpportunity_eq] at h
  split_ifs at h with hp
  · exact ⟨(Option.some_inj.mp h).symm, hp⟩

/-! ## C2: one-shot rescale -/

/-- C2: when the first-pass fee-inclusive total cost at the naive
allocation contracts0 = investment/(price1+price2) exceeds the investment,
checkArbitrageOpportunity rescales the contract count exactly once to
contracts0 * investment/(cost1+cost2) and recomputes both side costs once
at that count; otherwise no rescale occurs — every returned opportunity
carries exactly the once-rescaled count specRescaledContracts and the
costs recomputed at it, on both sides. -/
theorem checkArbitrage_single_rescale (p1 s1 : String) (a : ℚ)
    (p2 s2 : String) (b : ℚ) (inv : ℚ) (o : Opportunity)
    (h : checkArbitrageOpportunity p1 s1 a p2 s2 b inv = some o) :
    o.contracts1 = specRescaledContracts p1 a p2 b inv ∧
    o.contracts2 = o.contracts1 ∧
    o.cost1 = costFor p1 (specRescaledContracts p1 a p2 b inv) a ∧
    o.cost2 = costFor p2 (specRescaledContracts p1 a p2 b inv) b := by
  obtain ⟨rfl, -⟩ := checkArbitrageOpportunity_some p1 s1 a p2 s2 b inv o h
  exact ⟨rfl, rfl, rfl, rfl⟩

/-- Witness for C2 at the specification's end-to-end example: venue-A
price 0.21 (buy no), venue-B price 0.75 (buy yes), investment 100, where
the first-pass cost exceeds 100 and the rescale fires. -/
theorem checkArbitrage_single_rescale_witness :
    sampleOpportunity.contracts1 =
      specRescaledContracts "kalshi" (21/100) "polymarket" (75/100) 100 ∧
    sampleOpportunity.contracts2 = sampleOpportunity.contracts1 ∧
    sampleOpportunity.cost1 =
      costFor "kalshi" (specRescaledContracts "kalshi" (21/100) "polymarket" (75/100) 100) (21/100) ∧
    sampleOpportunity.cost2 =
      costFor "polymarket" (specRescaledContracts "kalshi" (21/100) "polymarket" (75/100) 100) (75/100) :=
  checkArbitrage_single_rescale "kalshi" "no" (21/100) "polymarket" "yes"
    (75/100) 100 sampleOpportunity sampleOpportunity_eval

/-! ## C4: Kalshi taker fee exactness -/

/-- C4: the venue-A taker fee is the documented formula rounded up to the
nearest cent — it is an integer number of cents, lies in
[raw, raw + 0.01) above the raw fee 0.07*contracts*price*(1-price), and
equals exactly ceil(raw * 100)/100; in particular
calculateKalshiTakerFee(100, 0.3) = 1.47 exactly. -/
theorem kalshiTakerFee_exact :
    calculateKalshiTakerFee 100 (3/10) = 147/100 ∧
    ∀ contracts price : ℚ,
      calculateKalshiTakerFee contracts price =
        ((⌈(7/100) * contracts * price * (1 - price) * 100⌉ : ℤ) : ℚ) / 100 ∧
      (7/100) * contracts * price * (1 - price) ≤ calculateKalshiTakerFee contracts price ∧
      calculateKalshiTakerFee contracts price <
        (7/100) * contracts * price * (1 - price) + 1/100 ∧
      ∃ cents : ℤ, calculateKalshiTakerFee contracts price = (cents : ℚ) / 100 := by
  have hval : calculateKalshiTakerFee 100 (3/10) = 147/100 := by
    norm_num [calculateKalshiTakerFee, takerFeeRate]
  refine ⟨hval, fun contracts price => ⟨rfl, ?_, ?_, ⟨_, rfl⟩⟩⟩
  · have h := Int.le_ceil ((7:ℚ)/100 * contracts * price * (1 - price) * 100)
    unfold calculateKalshiTakerFee takerFeeRate
    rw [le_div_iff₀ (by norm_num : (0:ℚ) < 100)]
    linarith
  · have h := Int.ceil_lt_add_one ((7:ℚ)/100 * contracts * price * (1 - price) * 100)
    unfold calculateKalshiTakerFee takerFeeRate
    rw [div_lt_iff₀ (by norm_num : (0:ℚ) < 100)]
    linarith

/-! ## C8: the indexing guard on the opportunities route is dead code -/

/-- C8 (code bug): the opportunities route checks
system.isIndexing && system.isIndexing() before serving matches, but
src/backend/routes/system.js exports only its router and never defines an
isIndexing property, so the lookup yields undefined, the guard is always
falsy, and a read during a database rebuild is served from the index
instead of failing fast with 503 — for every indexing state the route
never answers unavailable. -/
theorem opportunities_guard_dead :
    ∀ indexingInProgress queryOk : Bool,
      opportunitiesGet systemModule indexingInProgress queryOk ≠
        OpportunitiesResponse.unavailable := by
  intro i q
  cases q <;> simp [opportunitiesGet, systemModule]

/-! ## C9: a genuine zero yes_price is indistinguishable from 0.5 -/

/-- C9: for a market whose yes_price field is exactly 0 and whose price
field is absent or also 0, the fallback chain yes_price || price || 0.5 is
blind to the difference between 0 and a missing price, so calculateArbitrage
behaves identically to the same market with yes_price 0.5. -/
theorem zero_yes_price_as_half (m : Market) (h0 : m.yes_price = some 0)
    (hp : m.price = none ∨ m.price = some 0) (pm : Market) (inv : ℚ) :
    calculateArbitrage m pm inv =
      calculateArbitrage ⟨m.id, m.title, m.question, some (1/2), m.price⟩ pm inv := by
  have heff : effectiveYesPrice m =
      effectiveYesPrice ⟨m.id, m.title, m.question, some (1/2), m.price⟩ := by
    rcases hp with hp | hp <;>
      simp [effectiveYesPrice, jsOrQ, h0, hp]
  simp only [calculateArbitrage, heff]

/-- Witness for C9: a market quoting yes_price 0 with no price field, an
ordinary counterparty and investment 100. -/
theorem zero_yes_price_as_half_witness :
    calculateArbitrage ⟨"k1", none, none, some 0, none⟩
        ⟨"p1", none, none, some (3/10), none⟩ 100 =
      calculateArbitrage ⟨"k1", none, none, some (1/2), none⟩
        ⟨"p1", none, none, some (3/10), none⟩ 100 :=
  zero_yes_price_as_half ⟨"k1", none, none, some 0, none⟩ rfl (Or.inl rfl)
    ⟨"p1", none, none, some (3/10), none⟩ 100

/-! ## More helper lemmas: cost bounds and the two-combination selection -/

theorem costFor_kalshi (c p : ℚ) :
    costFor "kalshi" c p =
      ⟨c * p, calculateKalshiTakerFee c p, c * p + calculateKalshiTakerFee c p, c⟩ := by
  simp [costFor, calculateKalshiCost]

theorem costFor_of_ne (plat : String) (h : ¬ plat = "kalshi") (c p : ℚ) :
    costFor plat c p =
      ⟨c * p, calculatePolymarketFee c p, c * p + calculatePolymarketFee c p, c⟩ := by
  simp [costFor, h, calculatePolymarketCost]

theorem calculateKalshiTakerFee_nonneg (c p : ℚ) (hc : 0 ≤ c) (hp : 0 ≤ p)
    (hp1 : p ≤ 1) : 0 ≤ calculateKalshiTakerFee c p := by
  unfold calculateKalshiTakerFee takerFeeRate
  have h1 : (0:ℚ) ≤ 1 - p := by linarith
  have hraw : (0:ℚ) ≤ 7/100 * c * p * (1 - p) * 100 :=
    mul_nonneg (mul_nonneg (mul_nonneg
      (mul_nonneg (by norm_num : (0:ℚ) ≤ 7/100) hc) hp) h1)
      (by norm_num : (0:ℚ) ≤ 100)
  exact div_nonneg (Int.cast_nonneg.mpr (Int.ceil_nonneg hraw)) (by norm_num)

theorem costFor_totalCost_ge (plat : String) (c p : ℚ) (hc : 0 ≤ c)
    (hp : 0 ≤ p) (hp1 : p ≤ 1) : c * p ≤ (costFor plat c p).totalCost := by
  by_cases hplat : plat = "kalshi"
  · subst hplat
    rw [costFor_kalshi]
    exact le_add_of_nonneg_right (calculateKalshiTakerFee_nonneg c p hc hp hp1)
  · rw [costFor_of_ne plat hplat]
    exact le_add_of_nonneg_right (le_max_left 0 _)

theorem specRescaledContracts_nonneg (p1 : String) (a : ℚ) (p2 : String)
    (b : ℚ) (inv : ℚ) (ha0 : 0 ≤ a) (ha1 : a ≤ 1) (hb0 : 0 ≤ b) (hb1 : b ≤ 1)
    (hsum : 1 ≤ a + b) (hinv : 0 < inv) :
    0 ≤ specRescaledContracts p1 a p2 b inv := by
  unfold specRescaledContracts
  dsimp only
  have hab : (0:ℚ) < a + b := lt_of_lt_of_le one_pos hsum
  have hc0 : 0 ≤ inv / (a + b) := le_of_lt (div_pos hinv hab)
  split
  · exact mul_nonneg hc0 (div_nonneg (le_of_lt hinv) (by
      have h1 := costFor_totalCost_ge p1 (inv / (a + b)) a hc0 ha0 ha1
      have h2 := costFor_totalCost_ge p2 (inv / (a + b)) b hc0 hb0 hb1
      nlinarith))
  · exact hc0

theorem calculateArbitrage_none_iff (km pm : Market) (inv : ℚ) :
    calculateArbitrage km pm inv = none ↔
      combinationNetProfit "kalshi" (effectiveYesPrice km) "polymarket"
          (1 - effectiveYesPrice pm) inv ≤ 0 ∧
        combinationNetProfit "kalshi" (1 - effectiveYesPrice km) "polymarket"
          (effectiveYesPrice pm) inv ≤ 0 := by
  simp only [calculateArbitrage, checkArbitrageOpportunity_eq]
  by_cases h1 : 0 < combinationNetProfit "kalshi" (effectiveYesPrice km)
      "polymarket" (1 - effectiveYesPrice pm) inv <;>
    by_cases h2 : 0 < combinationNetProfit "kalshi" (1 - effectiveYesPrice km)
        "polymarket" (effectiveYesPrice pm) inv <;>
    simp [h1, h2, not_le_of_lt, le_of_not_lt]

/-! ## C1: best-of-two-combinations selection -/

/-- C1: for every pair of matched markets and positive investment,
calculateArbitrage evaluates exactly the two cross-venue combinations
(buy yes on kalshi with no on polymarket, and the mirror), returns null
precisely when neither combination's netProfit is positive, and otherwise
returns one of the two combinations, with positive netProfit equal to the
larger of the two combinations' net profits. -/
theorem calculateArbitrage_returns_best (km pm : Market) (inv : ℚ)
    (hinv : 0 < inv) :
    (calculateArbitrage km pm inv = none ↔
      combinationNetProfit "kalshi" (effectiveYesPrice km) "polymarket"
          (1 - effectiveYesPrice pm) inv ≤ 0 ∧
        combinationNetProfit "kalshi" (1 - effectiveYesPrice km) "polymarket"
          (effectiveYesPrice pm) inv ≤ 0) ∧
    ∀ o, calculateArbitrage km pm inv = some o →
      0 < o.profit.netProfit ∧
      o.profit.netProfit =
        max (combinationNetProfit "kalshi" (effectiveYesPrice km) "polymarket"
              (1 - effectiveYesPrice pm) inv)
            (combinationNetProfit "kalshi" (1 - effectiveYesPrice km) "polymarket"
              (effectiveYesPrice pm) inv) ∧
      o.platform1 = "kalshi" ∧ o.platform2 = "polymarket" ∧
      ((o.side1 = "yes" ∧ o.side2 = "no") ∨ (o.side1 = "no" ∧ o.side2 = "yes")) := by
  refine ⟨calculateArbitrage_none_iff km pm inv, ?_⟩
  intro o ho
  simp only [calculateArbitrage, checkArbitrageOpportunity_eq] at ho
  by_cases h1 : 0 < combinationNetProfit "kalshi" (effectiveYesPrice km)
      "polymarket" (1 - effectiveYesPrice pm) inv <;>
    by_cases h2 : 0 < combinationNetProfit "kalshi" (1 - effectiveYesPrice km)
        "polymarket" (effectiveYesPrice pm) inv <;>
    simp only [h1, h2, if_true, if_false, if_pos, if_neg, not_false_iff,
      combinationOpportunity_netProfit, gt_iff_lt, Option.some.injEq,
      reduceCtorEq] at ho
  · by_cases h3 : combinationNetProfit "kalshi" (effectiveYesPrice km)
        "polymarket" (1 - effectiveYesPrice pm) inv <
        combinationNetProfit "kalshi" (1 - effectiveYesPrice km) "polymarket"
          (effectiveYesPrice pm) inv
    · rw [if_pos h3] at ho
      subst ho
      exact ⟨h2, (max_eq_right (le_of_lt h3)).symm, rfl, rfl, Or.inr ⟨rfl, rfl⟩⟩
    · rw [if_neg h3] at ho
      subst ho
      exact ⟨h1, (max_eq_left (le_of_not_lt h3)).symm, rfl, rfl, Or.inl ⟨rfl, rfl⟩⟩
  · subst ho
    exact ⟨h1, (max_eq_left (le_trans (le_of_not_lt h2) (le_of_lt h1))).symm,
      rfl, rfl, Or.inl ⟨rfl, rfl⟩⟩
  · subst ho
    exact ⟨h2, (max_eq_right (le_trans (le_of_not_lt h1) (le_of_lt h2))).symm,
      rfl, rfl, Or.inr ⟨rfl, rfl⟩⟩

/-- Witness for C1 at the specification's example markets: kalshi yes price
0.79 (so buying no costs 0.21), polymarket yes price 0.75, investment
100. -/
theorem calculateArbitrage_returns_best_witness :
    (calculateArbitrage (Market.mk "k1" none none (some (79/100)) none)
        (Market.mk "p1" none none (some (75/100)) none) 100 = none ↔
      combinationNetProfit "kalshi"
          (effectiveYesPrice (Market.mk "k1" none none (some (79/100)) none))
          "polymarket"
          (1 - effectiveYesPrice (Market.mk "p1" none none (some (75/100)) none))
          100 ≤ 0 ∧
        combinationNetProfit "kalshi"
          (1 - effectiveYesPrice (Market.mk "k1" none none (some (79/100)) none))
          "polymarket"
          (effectiveYesPrice (Market.mk "p1" none none (some (75/100)) none))
          100 ≤ 0) ∧
    ∀ o, calculateArbitrage (Market.mk "k1" none none (some (79/100)) none)
        (Market.mk "p1" none none (some (75/100)) none) 100 = some o →
      0 < o.profit.netProfit ∧
      o.profit.netProfit =
        max (combinationNetProfit "kalshi"
              (effectiveYesPrice (Market.mk "k1" none none (some (79/100)) none))
              "polymarket"
              (1 - effectiveYesPrice (Market.mk "p1" none none (some (75/100)) none))
              100)
            (combinationNetProfit "kalshi"
              (1 - effectiveYesPrice (Market.mk "k1" none none (some (79/100)) none))
              "polymarket"
              (effectiveYesPrice (Market.mk "p1" none none (some (75/100)) none))
              100) ∧
      o.platform1 = "kalshi" ∧ o.platform2 = "polymarket" ∧
      ((o.side1 = "yes" ∧ o.side2 = "no") ∨ (o.side1 = "no" ∧ o.side2 = "yes")) :=
  calculateArbitrage_returns_best (Market.mk "k1" none none (some (79/100)) none)
    (Market.mk "p1" none none (some (75/100)) none) 100 (by norm_num)

/-! ## C3: price sums at or above 1 -/

/-- C3 counterexample: kalshi yes price 0.6 and polymarket yes price 0.45,
so the combination buying yes on kalshi and no on polymarket has bought
prices 0.6 and 0.55 summing to 1.15 ≥ 1 — yet calculateArbitrage does not
return null at investment 100: the mirror combination (bought prices 0.4
and 0.45, summing to 0.85) is profitable. -/
theorem priceSum_counterexample :
    effectiveYesPrice (Market.mk "k1" none none (some (3/5)) none) +
        (1 - effectiveYesPrice (Market.mk "p1" none none (some (9/20)) none)) =
      23/20 ∧
    (1 : ℚ) ≤ 23/20 ∧
    calculateArbitrage (Market.mk "k1" none none (some (3/5)) none)
        (Market.mk "p1" none none (some (9/20)) none) 100 ≠ none := by
  have heffk : effectiveYesPrice (Market.mk "k1" none none (some (3/5)) none) = 3/5 := by
    norm_num [effectiveYesPrice, jsOrQ]
  have heffp : effectiveYesPrice (Market.mk "p1" none none (some (9/20)) none) = 9/20 := by
    norm_num [effectiveYesPrice, jsOrQ]
  have hnp2 : combinationNetProfit "kalshi" (1 - 3/5) "polymarket" (9/20) 100 =
      30536416/2194575 := by
    have hc1 : (⌈(3360/17 : ℚ)⌉ : ℤ) = 198 := by
      rw [Int.ceil_eq_iff]
      norm_num
    have hc2 : (⌈(5600000/29261 : ℚ)⌉ : ℤ) = 192 := by
      rw [Int.ceil_eq_iff]
      norm_num
    norm_num [combinationNetProfit, specRescaledContracts, costFor,
      calculateKalshiCost, calculatePolymarketCost, calculateKalshiTakerFee,
      calculatePolymarketFee, takerFeeRate, polymarketFeeRate,
      calculateArbitrageProfit, string_poly_ne_kalshi, string_kalshi_eq,
      hc1, hc2]
  refine ⟨by rw [heffk, heffp]; norm_num, by norm_num, ?_⟩
  rw [Ne, calculateArbitrage_none_iff, heffk, heffp]
  intro h
  have h2 := h.2
  rw [hnp2] at h2
  norm_num at h2

/-- C3 amended: the no-opportunity guarantee holds per combination — for
every single combination whose two bought prices each lie in [0,1] and sum
to at least 1, and every positive investment, checkArbitrageOpportunity
returns null (fees are non-negative, so no allocation can pay out more
than it costs, before or after the one-shot rescale); calculateArbitrage
as a whole may still return the mirror combination, whose bought prices
sum to 2 minus the first sum. -/
theorem checkArbitrage_priceSum_none (p1 s1 : String) (a : ℚ)
    (p2 s2 : String) (b : ℚ) (inv : ℚ) (ha0 : 0 ≤ a) (ha1 : a ≤ 1)
    (hb0 : 0 ≤ b) (hb1 : b ≤ 1) (hsum : 1 ≤ a + b) (hinv : 0 < inv) :
    checkArbitrageOpportunity p1 s1 a p2 s2 b inv = none := by
  rw [checkArbitrageOpportunity_none_iff]
  unfold combinationNetProfit calculateArbitrageProfit
  dsimp only
  rw [costFor_maxPayout]
  have hR := specRescaledContracts_nonneg p1 a p2 b inv ha0 ha1 hb0 hb1 hsum hinv
  have h1 := costFor_totalCost_ge p1 (specRescaledContracts p1 a p2 b inv) a hR ha0 ha1
  have h2 := costFor_totalCost_ge p2 (specRescaledContracts p1 a p2 b inv) b hR hb0 hb1
  nlinarith [mul_le_mul_of_nonneg_left hsum hR]

/-- Witness for C3 amended, at the combination of the claim's example:
bought prices 0.6 and 0.55 (sum 1.15), investment 100. -/
theorem checkArbitrage_priceSum_none_witness :
    checkArbitrageOpportunity "kalshi" "yes" (3/5) "polymarket" "no"
      (11/20) 100 = none :=
  checkArbitrage_priceSum_none "kalshi" "yes" (3/5) "polymarket" "no"
    (11/20) 100 (by norm_num) (by norm_num) (by norm_num) (by norm_num)
    (by norm_num) (by norm_num)

/-! ## C7: lexical similarity is symmetric -/

theorem similarityScores_comm (e1 e2 : EntityBag) :
    similarityScores e1 e2 = similarityScores e2 e1 := by
  unfold similarityScores
  refine if_congr eq_comm rfl (if_congr or_comm rfl (if_congr ?_ rfl ?_))
  · constructor
    · rintro ⟨x, y, z⟩
      exact ⟨y, x, by rwa [Finset.inter_comm]⟩
    · rintro ⟨x, y, z⟩
      exact ⟨y, x, by rwa [Finset.inter_comm]⟩
  · simp only [Finset.inter_comm e1.words e2.words,
      Finset.union_comm e1.words e2.words,
      Finset.inter_comm e1.names e2.names,
      Finset.union_comm e1.names e2.names,
      Finset.inter_comm e1.numbers e2.numbers,
      Finset.union_comm e1.numbers e2.numbers, or_comm]

/-- C7: lexical calculateSimilarity is symmetric in its two title
arguments — every strategy (empty guard, exact normalized match, substring
containment in either direction, year gate, and the weighted Jaccard
combination) is invariant under swapping the two entity bags. -/
theorem calculateSimilarity_symm (a b : String) :
    calculateSimilarity a b = calculateSimilarity b a := by
  unfold calculateSimilarity
  exact if_congr or_comm rfl (similarityScores_comm _ _)

/-! ## C5: the year gate -/

/-- C5 counterexample: the titles "by 2030 happen 20267" and "happen 2026"
have non-empty disjoint year sets ({2030} and {2026} — the token 20267 is
not a year), yet calculateSimilarity returns 0.85, not 0: the substring
strategy (line 52) short-circuits before the year gate (line 57), because
the second normalized title occurs verbatim inside the first. -/
theorem yearGate_substring_counterexample :
    0 < (extractKeyEntities "by 2030 happen 20267").years.card ∧
    0 < (extractKeyEntities "happen 2026").years.card ∧
    ((extractKeyEntities "by 2030 happen 20267").years ∩
        (extractKeyEntities "happen 2026").years).card = 0 ∧
    calculateSimilarity "by 2030 happen 20267" "happen 2026" = 85/100 ∧
    calculateSimilarity "by 2030 happen 20267" "happen 2026" ≠ 0 := by
  have hval : calculateSimilarity "by 2030 happen 20267" "happen 2026" = 85/100 := rfl
  exact ⟨by decide, by decide, by decide, hval, by rw [hval]; norm_num⟩

/-- C5 amended: for every pair of titles whose extracted year sets are both
non-empty and disjoint, and whose normalized texts are neither equal nor
one contained in the other as a substring, calculateSimilarity returns
exactly 0 regardless of word, name, or number overlap; when one normalized
title contains the other, the substring strategy short-circuits first and
it returns 0.85. -/
theorem yearGate_zero (a b : String)
    (h1 : 0 < (extractKeyEntities a).years.card)
    (h2 : 0 < (extractKeyEntities b).years.card)
    (hdisj : ((extractKeyEntities a).years ∩ (extractKeyEntities b).years).card = 0)
    (hne : ¬ (extractKeyEntities a).normalized = (extractKeyEntities b).normalized)
    (hsub : ¬ (containsSub (extractKeyEntities a).normalized
                 (extractKeyEntities b).normalized ∨
               containsSub (extractKeyEntities b).normalized
                 (extractKeyEntities a).normalized)) :
    calculateSimilarity a b = 0 := by
  unfold calculateSimilarity
  by_cases hempty : a = "" ∨ b = ""
  · rw [if_pos hempty]
  · rw [if_neg hempty]
    unfold similarityScores
    rw [if_neg hne, if_neg hsub, if_pos ⟨h1, h2, hdisj⟩]

/-- Witness for C5 amended: "alpha 2026" and "alpha 2030" share the word
alpha but carry disjoint years and are not substrings of each other, so
the similarity is exactly 0. -/
theorem yearGate_zero_witness :
    calculateSimilarity "alpha 2026" "alpha 2030" = 0 :=
  yearGate_zero "alpha 2026" "alpha 2030" (by decide) (by decide) (by decide)
    (by decide) (by decide)

/-! ## C6: matching exclusivity -/

theorem pickBestMatchGo_not_used (used : Finset String) (minSim : ℚ)
    (title : String) :
    ∀ (l : List Market) (init : Option (Market × ℚ)),
      (∀ q t, init = some (q, t) → q.id ∉ used) →
      ∀ p s, pickBestMatchGo used minSim title l init = some (p, s) →
        p.id ∉ used := by
  intro l
  induction l with
  | nil =>
    intro init hinit p s h
    exact hinit p s h
  | cons x xs ih =>
    intro init hinit p s h
    refine ih _ ?_ p s h
    intro q t hstep
    by_cases hx : x.id ∈ used
    · rw [if_pos hx] at hstep
      exact hinit q t hstep
    · rw [if_neg hx] at hstep
      dsimp only at hstep
      split_ifs at hstep with hc
      · obtain ⟨rfl, -⟩ := Prod.mk.injEq .. ▸ (Option.some_inj.mp hstep).symm
        exact hx
      · exact hinit q t hstep

theorem pickBestMatch_not_used (polys : List Market) (used : Finset String)
    (minSim : ℚ) (title : String) (p : Market) (s : ℚ)
    (h : pickBestMatch polys used minSim title = some (p, s)) : p.id ∉ used :=
  pickBestMatchGo_not_used used minSim title polys none
    (by intro q t h'; cases h') p s h

theorem findMatchingMarketsGo_poly_nodup (polys : List Market) (minSim : ℚ) :
    ∀ (ks : List Market) (used : Finset String),
      (∀ mp ∈ findMatchingMarketsGo polys minSim ks used,
          mp.polymarket.id ∉ used) ∧
      ((findMatchingMarketsGo polys minSim ks used).map
          (fun mp => mp.polymarket.id)).Nodup := by
  intro ks
  induction ks with
  | nil =>
    intro used
    simp [findMatchingMarketsGo]
  | cons k ks ih =>
    intro used
    unfold findMatchingMarketsGo
    cases hpick : pickBestMatch polys used minSim (matcherTitle k) with
    | none => exact ih used
    | some ps =>
      obtain ⟨p, s⟩ := ps
      have hnotused := pickBestMatch_not_used polys used minSim
        (matcherTitle k) p s hpick
      constructor
      · intro mp hmp
        rcases List.mem_cons.mp hmp with rfl | hmem
        · exact hnotused
        · intro hin
          exact (ih (insert p.id used)).1 mp hmem (Finset.mem_insert_of_mem hin)
      · rw [List.map_cons, List.nodup_cons]
        refine ⟨?_, (ih (insert p.id used)).2⟩
        intro hmem
        obtain ⟨mp, hmp, hmpid⟩ := List.mem_map.mp hmem
        have hni := (ih (insert p.id used)).1 mp hmp
        rw [hmpid] at hni
        exact hni (Finset.mem_insert_self p.id used)

theorem findMatchingMarketsGo_kalshi_sublist (polys : List Market)
    (minSim : ℚ) :
    ∀ (ks : List Market) (used : Finset String),
      ((findMatchingMarketsGo polys minSim ks used).map
        (fun mp => mp.kalshi)).Sublist ks := by
  intro ks
  induction ks with
  | nil =>
    intro used
    simp [findMatchingMarketsGo]
  | cons k ks ih =>
    intro used
    unfold findMatchingMarketsGo
    cases hpick : pickBestMatch polys used minSim (matcherTitle k) with
    | none => exact (ih used).cons k
    | some ps =>
      obtain ⟨p, s⟩ := ps
      rw [List.map_cons]
      exact (ih (insert p.id used)).cons₂ k

/-- C6 counterexample: a venue-A input list containing the same id "k1"
twice (a perfectly legal JavaScript array) produces two MatchedPairs both
carrying kalshi id "k1" — the id appears in more than one pair, so the
claim's unrestricted exclusivity fails; only the venue-B side is protected
by the used set. -/
theorem matcher_duplicate_id_counterexample :
    ((findMatchingMarkets
        [Market.mk "k1" (some "aaa bbb") none none none,
         Market.mk "k1" (some "aaa bbb") none none none]
        [Market.mk "p1" (some "aaa bbb") none none none,
         Market.mk "p2" (some "aaa bbb") none none none]
        (4/10)).map (fun mp => mp.kalshi.id)) = ["k1", "k1"] ∧
    ¬ ((findMatchingMarkets
        [Market.mk "k1" (some "aaa bbb") none none none,
         Market.mk "k1" (some "aaa bbb") none none none]
        [Market.mk "p1" (some "aaa bbb") none none none,
         Market.mk "p2" (some "aaa bbb") none none none]
        (4/10)).map (fun mp => mp.kalshi.id)).Nodup := by
  have hsim : calculateSimilarity "aaa bbb" "aaa bbb" = 1 := rfl
  have ht1 : matcherTitle (Market.mk "p1" (some "aaa bbb") none none none) =
      "aaa bbb" := rfl
  have ht2 : matcherTitle (Market.mk "p2" (some "aaa bbb") none none none) =
      "aaa bbb" := rfl
  have htk : matcherTitle (Market.mk "k1" (some "aaa bbb") none none none) =
      "aaa bbb" := rfl
  have hp2p1 : ("p2" = "p1") = False := by simp
  have heval : findMatchingMarkets
      [Market.mk "k1" (some "aaa bbb") none none none,
       Market.mk "k1" (some "aaa bbb") none none none]
      [Market.mk "p1" (some "aaa bbb") none none none,
       Market.mk "p2" (some "aaa bbb") none none none]
      (4/10) =
      [MatchedPair.mk (Market.mk "k1" (some "aaa bbb") none none none)
        (Market.mk "p1" (some "aaa bbb") none none none) 1 "high",
       MatchedPair.mk (Market.mk "k1" (some "aaa bbb") none none none)
        (Market.mk "p2" (some "aaa bbb") none none none) 1 "high"] := by
    norm_num [findMatchingMarkets, findMatchingMarketsGo, pickBestMatch,
      pickBestMatchGo, htk, ht1, ht2, hsim, hp2p1]
  rw [heval]
  exact ⟨rfl, by decide⟩

/-- C6 amended: provided the venue-A input list has pairwise-distinct
market ids, no market id appears in more than one MatchedPair of the
output (each venue-A market is paired at most once, and a venue-B id
claimed into the used set is never paired again in the same pass); the
venue-B exclusivity holds even without the hypothesis, by the used set. -/
theorem matcher_exclusive (kalshiMarkets polymarketMarkets : List Market)
    (minSimilarity : ℚ) (h : (kalshiMarkets.map Market.id).Nodup) :
    ((findMatchingMarkets kalshiMarkets polymarketMarkets minSimilarity).map
        (fun mp => mp.kalshi.id)).Nodup ∧
    ((findMatchingMarkets kalshiMarkets polymarketMarkets minSimilarity).map
        (fun mp => mp.polymarket.id)).Nodup := by
  constructor
  · have hsub := findMatchingMarketsGo_kalshi_sublist polymarketMarkets
      minSimilarity kalshiMarkets ∅
    have hmap : ((findMatchingMarkets kalshiMarkets polymarketMarkets
          minSimilarity).map (fun mp => mp.kalshi.id)) =
        ((findMatchingMarketsGo polymarketMarkets minSimilarity kalshiMarkets
          ∅).map (fun mp => mp.kalshi)).map Market.id := by
      rw [List.map_map]
      rfl
    rw [hmap]
    exact h.sublist (hsub.map Market.id)
  · exact (findMatchingMarketsGo_poly_nodup polymarketMarkets minSimilarity
      kalshiMarkets ∅).2

/-- Witness for C6 amended: distinct venue-A ids, one identical title on
each side, threshold 0.4 — the single pair produced has trivially
duplicate-free ids on both sides. -/
theorem matcher_exclusive_witness :
    ((findMatchingMarkets [Market.mk "k1" (some "aaa bbb") none none none]
        [Market.mk "p1" (some "aaa bbb") none none none] (4/10)).map
        (fun mp => mp.kalshi.id)).Nodup ∧
    ((findMatchingMarkets [Market.mk "k1" (some "aaa bbb") none none none]
        [Market.mk "p1" (some "aaa bbb") none none none] (4/10)).map
        (fun mp => mp.polymarket.id)).Nodup :=
  matcher_exclusive [Market.mk "k1" (some "aaa bbb") none none none]
    [Market.mk "p1" (some "aaa bbb") none none none] (4/10) (by decide)

/-! ## C10: cosine similarity and zero-norm vectors -/

theorem normSq_cons (a : ℚ) (l : List ℚ) :
    normSq (a :: l) = a * a + normSq l := by
  simp [normSq]

theorem normSq_nonneg (v : List ℚ) : 0 ≤ normSq v := by
  induction v with
  | nil => simp [normSq]
  | cons a l ih =>
    rw [normSq_cons]
    exact add_nonneg (mul_self_nonneg a) ih

theorem normSq_eq_zero_forall (v : List ℚ) (h : normSq v = 0) :
    ∀ x ∈ v, x = 0 := by
  induction v with
  | nil => simp
  | cons a l ih =>
    rw [normSq_cons] at h
    have hl := normSq_nonneg l
    have ha2 : a * a = 0 := by nlinarith [mul_self_nonneg a]
    have ha : a = 0 := by
      rcases mul_eq_zero.mp ha2 with h' | h' <;> exact h'
    intro x hx
    rcases List.mem_cons.mp hx with rfl | hx'
    · exact ha
    · exact ih (by linarith) x hx'

theorem dotProduct_eq_zero_left (v1 v2 : List ℚ) (h : ∀ x ∈ v1, x = 0) :
    dotProduct v1 v2 = 0 := by
  induction v1 generalizing v2 with
  | nil => simp [dotProduct]
  | cons a l ih =>
    cases v2 with
    | nil => simp [dotProduct]
    | cons b m =>
      have ha : a = 0 := h a (List.mem_cons_self a l)
      have hrest := ih m (fun x hx => h x (List.mem_cons_of_mem a hx))
      simp [dotProduct, List.zipWith] at hrest ⊢
      simp [ha, hrest]

theorem dotProduct_eq_zero_right (v1 v2 : List ℚ) (h : ∀ x ∈ v2, x = 0) :
    dotProduct v1 v2 = 0 := by
  induction v1 generalizing v2 with
  | nil => simp [dotProduct]
  | cons a l ih =>
    cases v2 with
    | nil => simp [dotProduct]
    | cons b m =>
      have hb : b = 0 := h b (List.mem_cons_self b m)
      have hrest := ih m (fun x hx => h x (List.mem_cons_of_mem b hx))
      simp [dotProduct, List.zipWith] at hrest ⊢
      simp [hb, hrest]

/-- C10 counterexample: two present vectors of equal length — [1,0] and
[0,1] — on which cosineSimilarity also returns the number 0 (the dot
product of orthogonal vectors over the nonzero product of norms), so 0 is
not returned only for an absent vector or mismatched lengths. -/
theorem cosine_orthogonal_counterexample :
    (([1, 0] : List ℚ).length = ([0, 1] : List ℚ).length) ∧
    cosineSimilarity (some [1, 0]) (some [0, 1]) = JSNum.val 0 := by
  refine ⟨rfl, ?_⟩
  have hdot : dotProduct [1, 0] [0, 1] = 0 := by
    simp [dotProduct, List.zipWith]
  have hn : normSq [1, 0] = 1 := by norm_num [normSq]
  have hn2 : normSq [0, 1] = 1 := by norm_num [normSq]
  simp only [cosineSimilarity, List.length_cons, List.length_nil, if_true,
    hdot, hn, hn2, if_pos]
  norm_num [jsDiv]

/-- C10 amended: the early-return 0 of cosineSimilarity fires exactly for
an absent vector or mismatched lengths (although the division itself can
also produce 0, for orthogonal vectors); for every pair of present
equal-length vectors at least one of which has zero squared norm, the
division by the product of the norms is unguarded and evaluates 0/0, so
the result is NaN rather than a number in [0,1]. -/
theorem cosine_zero_norm_nan (v1 v2 : List ℚ)
    (hlen : v1.length = v2.length)
    (h0 : normSq v1 = 0 ∨ normSq v2 = 0) :
    cosineSimilarity (some v1) (some v2) = JSNum.nan := by
  have hdot : dotProduct v1 v2 = 0 := by
    rcases h0 with h | h
    · exact dotProduct_eq_zero_left v1 v2 (normSq_eq_zero_forall v1 h)
    · exact dotProduct_eq_zero_right v1 v2 (normSq_eq_zero_forall v2 h)
  have hden : Real.sqrt ((normSq v1 : ℚ) : ℝ) *
      Real.sqrt ((normSq v2 : ℚ) : ℝ) = 0 := by
    rcases h0 with h | h
    · rw [h]
      push_cast
      rw [Real.sqrt_zero, zero_mul]
    · rw [h]
      push_cast
      rw [Real.sqrt_zero, mul_zero]
  simp only [cosineSimilarity, if_pos hlen, hdot, hden]
  norm_num [jsDiv]

/-- Witness for C10 amended: the zero vector [0,0] against [3,4]. -/
theorem cosine_zero_norm_nan_witness :
    cosineSimilarity (some [0, 0]) (some [3, 4]) = JSNum.nan :=
  cosine_zero_norm_nan [0, 0] [3, 4] rfl (Or.inl (by norm_num [normSq]))
